import Mathlib

/-!
Shallow embedding of the authentication / multi-tenant authorization core of
the wood-wireline-website repository (src/lib/auth.ts and the admin API
endpoints), together with theorems settling the frozen claims.

Modelling conventions:
* JS strings are modelled as `List Char` in the hashing module (where the
  code does character-level work) and as `String` elsewhere.
* Machine randomness (crypto.getRandomValues) is modelled by passing the
  salt as an explicit argument; `crypto.subtle.deriveBits` (the Workers
  runtime KDF, an external collaborator) is modelled as an explicit function
  argument `subtle algName hashName password salt iterations bits`, always
  called with the literal arguments of the source ("PBKDF2", "SHA-512",
  512).  Its outputs are read back through `new Uint8Array`, so theorems
  carry the hypothesis that each produced byte is `< 256` (and that 512
  bits are 64 bytes where a length is needed).
* Code that can throw is modelled with `Except JsError`.
-/

namespace WoodWireline

/-- JavaScript runtime errors that matter to the modelled code paths. -/
inductive JsError where
  | typeError
  | operationError
deriving DecidableEq

/-- `Char.ofNat (48 + n)`: the decimal digit characters used by
`Number.prototype.toString`. -/
def digitChar (n : Nat) : Char := Char.ofNat (48 + n)

/-- Digit accumulator for `decChars`; the fuel (first argument) makes the
recursion structural so that proofs can evaluate it. -/
def decCharsAux : Nat → Nat → List Char → List Char
  | 0, _, acc => acc
  | fuel + 1, n, acc =>
    if n < 10 then digitChar n :: acc
    else decCharsAux fuel (n / 10) (digitChar (n % 10) :: acc)

/-- Decimal rendering of a natural number, as produced by JS template
literals / `toString()`. -/
def decChars (n : Nat) : List Char := decCharsAux (n + 1) n []

/-- One hex digit, lowercase, as produced by `b.toString(16)` for `b < 16`. -/
def hexChar (n : Nat) : Char :=
  if n < 10 then Char.ofNat (48 + n) else Char.ofNat (87 + n)

/-- `b.toString(16).padStart(2, '0')` for a byte `b < 256`: exactly two
lowercase hex characters. -/
def hexByte (b : Nat) : List Char := [hexChar (b / 16), hexChar (b % 16)]

/-- `bytes.map(b => b.toString(16).padStart(2, '0')).join('')`. -/
def hexEncode (bs : List Nat) : List Char := (bs.map hexByte).flatten

/-- Value of a hex digit character, accepting both cases like
`parseInt(.., 16)` does. `none` for a non-hex character. -/
def hexVal (c : Char) : Option Nat :=
  if 48 ≤ c.toNat ∧ c.toNat ≤ 57 then some (c.toNat - 48)
  else if 97 ≤ c.toNat ∧ c.toNat ≤ 102 then some (c.toNat - 97 + 10)
  else if 65 ≤ c.toNat ∧ c.toNat ≤ 70 then some (c.toNat - 65 + 10)
  else none

/-- `parseInt(s, 16)` restricted to the shapes that occur here (chunks of at
most two characters): parse the maximal hex-digit run at the front; `none`
models `NaN`.  (The JS extras — leading whitespace, sign, a `0x` prefix —
cannot occur in two-character chunks of interest and are not modelled.) -/
def parseHexRun (s : List Char) : Option Nat :=
  let ds := s.takeWhile (fun c => (hexVal c).isSome)
  if ds.isEmpty then none
  else some (ds.foldl (fun acc c => acc * 16 + ((hexVal c).getD 0)) 0)

/-- A parsed hex chunk as coerced by the `Uint8Array` constructor:
`NaN` becomes `0`. -/
def parseHexByte (chunk : List Char) : Nat := (parseHexRun chunk).getD 0

/-- `s.match(/.{1,2}/g)` on a string without newlines: the chunks of length
two (a final odd chunk has length one). -/
def chunk2 : List Char → List (List Char)
  | [] => []
  | [a] => [[a]]
  | a :: b :: rest => [a, b] :: chunk2 rest

/-- `s.match(/.{1,2}/g)` returns `null` (here `none`) when the string has no
match at all, i.e. when it is empty. -/
def hexPairs (s : List Char) : Option (List (List Char)) :=
  if s.isEmpty then none else some (chunk2 s)

/-- `parseInt(s, 10)` restricted to the shapes that occur here: the maximal
decimal-digit run at the front; `none` models `NaN`. -/
def parseIntDec (s : List Char) : Option Nat :=
  let ds := s.takeWhile (fun c => c.isDigit)
  if ds.isEmpty then none
  else some (ds.foldl (fun acc c => acc * 10 + (c.toNat - 48)) 0)

/-- `storedHash.split(':')` — JS `String.prototype.split` with a single-char
separator: always returns at least one (possibly empty) part. -/
def splitOnColon : List Char → List (List Char)
  | [] => [[]]
  | c :: rest =>
    match splitOnColon rest with
    | [] => [[]]
    | p :: ps => if c = ':' then [] :: p :: ps else (c :: p) :: ps

/-- The signature of the modelled `crypto.subtle.deriveBits` wrapper:
algorithm name, hash name, password, salt, iteration count, bit length. -/
abbrev Kdf := String → String → List Char → List Nat → Nat → Nat → List Nat

/-- `hashPassword` (src lib/auth.ts lines 14-39): derive a key from the
password with PBKDF2-HMAC-SHA512, 100000 iterations, 512 bits, over the
given 16-byte random salt, and render `iterations:saltHex:hashHex`.
The salt (from `crypto.getRandomValues(new Uint8Array(16))`) is an explicit
argument here. -/
def hashPassword (subtle : Kdf) (salt : List Nat) (password : List Char) : List Char :=
  let iterations : Nat := 100000
  let derived := subtle "PBKDF2" "SHA-512" password salt iterations 512
  decChars iterations ++ ':' :: hexEncode salt ++ ':' :: hexEncode derived

/-- `verifyPassword` (src lib/auth.ts lines 45-75): split the stored hash on
colons; anything but exactly three parts returns `false`.  Then the code
asserts `saltHex.match(/.{1,2}/g)!` non-null — for an empty salt part the
match is `null` and the immediate `.map` throws a `TypeError`.  A
non-numeric iteration count reaches `crypto.subtle.deriveBits` as `NaN`
(and an explicit `0` is rejected by PBKDF2), which also throws.  Otherwise
the derived key is recomputed and compared to the expected hex string. -/
def verifyPassword (subtle : Kdf) (password storedHash : List Char) :
    Except JsError Bool :=
  match splitOnColon storedHash with
  | [iterationsStr, saltHex, expectedHash] =>
    match hexPairs saltHex with
    | none => .error .typeError
    | some pairs =>
      let salt := pairs.map parseHexByte
      match parseIntDec iterationsStr with
      | none => .error .typeError
      | some iterations =>
        if iterations = 0 then .error .operationError
        else
          let computed := hexEncode (subtle "PBKDF2" "SHA-512" password salt iterations 512)
          .ok (computed == expectedHash)
  | _ => .ok false

/-- Lowercase hexadecimal character predicate (for stating the hash format
claim). -/
def isLowerHexChar (c : Char) : Bool :=
  (48 ≤ c.toNat && c.toNat ≤ 57) || (97 ≤ c.toNat && c.toNat ≤ 102)

/-!
## Data model

`JWTPayload` mirrors the claim set read back by `verifyToken` (src
lib/auth.ts lines 106-121).  The TypeScript casts (`payload.sub as string`
etc.) do not make absent claims present, so every claim field that the jose
library does not itself guarantee is an `Option`.
-/

structure JWTPayload where
  sub : Option String
  email : Option String
  name : Option String
  role : Option String
  tenant_id : Option String
  jti : Option String
  iat : Option Nat
  exp : Option Nat
deriving DecidableEq

/-- A signed token.  The HMAC-SHA256 signature is modelled symbolically: a
signature is valid for `secret` exactly when it is the pair
`(secret, claims)`, which captures unforgeability and binding to the signed
payload without modelling SHA-256 itself. -/
structure Token where
  claims : JWTPayload
  sig : String × JWTPayload
deriving DecidableEq

/-- `jose.jwtVerify` + the claim extraction of `verifyToken` (src lib/auth.ts
lines 106-121): succeeds iff the signature verifies against the secret and
the token is unexpired (jose only checks `exp` when the claim is present);
`now` is the verifier clock in unix seconds. -/
def verifyToken (t : Token) (jwtSecret : String) (now : Nat) : Option JWTPayload :=
  if t.sig == (jwtSecret, t.claims) && (match t.claims.exp with
      | none => true
      | some e => decide (now < e)) then
    some t.claims
  else none

/-- An inbound request, reduced to its token-carrying positions.  Tokens are
structured values in this model, so the `Authorization: Bearer` parsing and
cookie parsing of `getTokenFromRequest` reduce to the two optional slots;
the header-over-cookie precedence is preserved. -/
structure Request where
  bearer : Option Token
  cookieToken : Option Token
deriving DecidableEq

/-- `getTokenFromRequest` (src lib/auth.ts lines 133-150): Authorization
header first, then the `admin_token` cookie. -/
def getTokenFromRequest (req : Request) : Option Token :=
  match req.bearer with
  | some t => some t
  | none => req.cookieToken

/-- `canAccessTenant` (src lib/auth.ts lines 188-195). -/
def canAccessTenant (user : JWTPayload) (tenantId : String) : Bool :=
  if user.role == some "agency" then true
  else user.tenant_id == some tenantId

/-- `canModify` (src lib/auth.ts lines 200-202). -/
def canModify (user : JWTPayload) : Bool :=
  user.role != some "viewer"

/-- `createLogoutCookie` (src lib/auth.ts lines 165-169). -/
def createLogoutCookie (isProduction : Bool) : String :=
  "admin_token=; Path=/; HttpOnly; " ++ (if isProduction then "Secure; " else "")
    ++ "SameSite=Lax; Max-Age=0"

/-!
## Session store

Sessions live in the D1 `sessions` table (db/schema.sql): `id TEXT PRIMARY
KEY`, `user_id INTEGER`, `expires_at TEXT`.  SQLite compares two TEXT
values with the BINARY collation, i.e. byte-wise; all strings involved are
ASCII, so character-code comparison is exact.  (`created_at` has a default
and is never read by the modelled code, so it is omitted from the row.)
-/

structure SessionRow where
  id : String
  user_id : Nat
  expires_at : String
deriving DecidableEq

/-- Byte-wise (BINARY collation) strict "less than" on character lists. -/
def textLt : List Char → List Char → Bool
  | [], [] => false
  | [], _ :: _ => true
  | _ :: _, [] => false
  | a :: as, b :: bs =>
    if a.toNat < b.toNat then true
    else if b.toNat < a.toNat then false
    else textLt as bs

/-- SQLite `a > b` on two TEXT values. -/
def sqliteTextGt (a b : String) : Bool := textLt b.data a.data

/-- A JS `Date` instant (UTC components), used for `expiresAt` and for the
server clock behind `datetime('now')`. -/
structure JsDate where
  year : Nat
  month : Nat
  day : Nat
  hour : Nat
  minute : Nat
  second : Nat
  ms : Nat
deriving DecidableEq

/-- Zero-padded two-digit decimal. -/
def pad2 (n : Nat) : List Char := if n < 10 then '0' :: decChars n else decChars n

/-- Zero-padded three-digit decimal. -/
def pad3 (n : Nat) : List Char :=
  if n < 10 then '0' :: '0' :: decChars n
  else if n < 100 then '0' :: decChars n
  else decChars n

/-- Zero-padded four-digit decimal. -/
def pad4 (n : Nat) : List Char :=
  if n < 10 then '0' :: '0' :: '0' :: decChars n
  else if n < 100 then '0' :: '0' :: decChars n
  else if n < 1000 then '0' :: decChars n
  else decChars n

/-- `Date.prototype.toISOString`: `YYYY-MM-DDTHH:MM:SS.mmmZ`. -/
def toISOString (d : JsDate) : String :=
  ⟨pad4 d.year ++ '-' :: pad2 d.month ++ '-' :: pad2 d.day ++
    'T' :: pad2 d.hour ++ ':' :: pad2 d.minute ++ ':' :: pad2 d.second ++
    '.' :: pad3 d.ms ++ ['Z']⟩

/-- SQLite `datetime('now')`: `YYYY-MM-DD HH:MM:SS` (UTC). -/
def sqliteNow (d : JsDate) : String :=
  ⟨pad4 d.year ++ '-' :: pad2 d.month ++ '-' :: pad2 d.day ++
    ' ' :: pad2 d.hour ++ ':' :: pad2 d.minute ++ ':' :: pad2 d.second⟩

/-- Order-preserving key for comparing instants (fields are within calendar
ranges, so the mixed radix is injective and monotone). -/
def dateKey (d : JsDate) : Nat :=
  ((((d.year * 100 + d.month) * 100 + d.day) * 100 + d.hour) * 100 + d.minute)
    * 100 * 1000 + d.second * 1000 + d.ms

/-- `createSession` (src lib/auth.ts lines 207-219): INSERT a row with
`expires_at = expiresAt.toISOString()`. -/
def createSession (db : List SessionRow) (userId : Nat) (sessionId : String)
    (expiresAt : JsDate) : List SessionRow :=
  db ++ [{ id := sessionId, user_id := userId, expires_at := toISOString expiresAt }]

/-- `validateSession` (src lib/auth.ts lines 224-233): a row with the given
id whose `expires_at` TEXT compares greater than `datetime('now')`.  `now`
is the `datetime('now')` string of the server clock. -/
def validateSession (db : List SessionRow) (sessionId : String) (now : String) : Bool :=
  db.any (fun r => r.id == sessionId && sqliteTextGt r.expires_at now)

/-- `deleteSession` (src lib/auth.ts lines 238-240): DELETE the rows with the
given id. -/
def deleteSession (db : List SessionRow) (sessionId : String) : List SessionRow :=
  db.filter (fun r => !(r.id == sessionId))

/-!
## Admin users table

`admin_users` (db/schema.sql / migration 004).  `created_at` has a default
and `last_login` is only written by the login flow; neither is read by the
modelled handlers, so they are omitted from the row.  `is_active` is the
stored 0/1 integer.
-/

structure UserRow where
  id : Nat
  email : String
  password_hash : String
  name : String
  role : String
  tenant_id : Option String
  notify_forms : String
  is_active : Nat
deriving DecidableEq

/-- JS string truthiness for an optional field: absent and empty are falsy. -/
def truthy : Option String → Bool
  | some s => !s.isEmpty
  | none => false

/-- A TEXT route parameter bound against an INTEGER column: SQLite's INTEGER
affinity converts a purely numeric text to its number; other text matches no
integer.  (Fractional/signed forms do not occur in the modelled requests.) -/
def sqlIdMatches (col : Nat) (param : String) : Bool :=
  if param.data.isEmpty then false
  else if param.data.all (fun c => c.isDigit) then
    col == param.data.foldl (fun acc c => acc * 10 + (c.toNat - 48)) 0
  else false

/-- `result.meta.last_row_id` for an AUTOINCREMENT insert: one more than the
largest id in use. -/
def nextId (users : List UserRow) : Nat :=
  users.foldl (fun m u => max m u.id) 0 + 1

/-!
## Request handlers

Each admin endpoint repeats the same four-step authentication prologue
(extract token, verify, check jti session, yield payload); `authenticate`
is that shared prologue.  A `payload.jti` that is absent reaches
`DB.prepare(..).bind(undefined)`, which D1 rejects with a type error; the
handler's catch-all turns that into a 500.
-/

inductive AuthStep where
  | noToken
  | badToken
  | noJti
  | badSession
  | ok (payload : JWTPayload)
deriving DecidableEq

def authenticate (req : Request) (sessions : List SessionRow) (secret : String)
    (tokenNow : Nat) (dbNow : String) : AuthStep :=
  match getTokenFromRequest req with
  | none => .noToken
  | some tok =>
    match verifyToken tok secret tokenNow with
    | none => .badToken
    | some payload =>
      match payload.jti with
      | none => .noJti
      | some j => if validateSession sessions j dbNow then .ok payload else .badSession

/-- HTTP results of the modelled handlers, with the response message where
the source sends one. -/
inductive Res where
  | badRequest (msg : String)
  | unauthorized (msg : String)
  | forbidden (msg : String)
  | notFound (msg : String)
  | serverError
  | created
  | ok
deriving DecidableEq

def Res.status : Res → Nat
  | .badRequest _ => 400
  | .unauthorized _ => 401
  | .forbidden _ => 403
  | .notFound _ => 404
  | .serverError => 500
  | .created => 201
  | .ok => 200

/-- Map an authentication failure to the response the handlers send. -/
def authFail : AuthStep → Res
  | .noToken => .unauthorized "Unauthorized"
  | .badToken => .unauthorized "Invalid token"
  | .noJti => .serverError
  | .badSession => .unauthorized "Session expired"
  | .ok _ => .ok

/-- GET /api/admin/submissions (src pages/api/admin/submissions.ts lines
11-42): the authentication pipeline of every authenticated admin endpoint.
On success the handler goes on to the (out-of-core) submission listing;
only the pipeline outcome is modelled. -/
def submissionsGET (req : Request) (sessions : List SessionRow) (secret : String)
    (tokenNow : Nat) (dbNow : String) : Res :=
  match authenticate req sessions secret tokenNow dbNow with
  | .ok _ => .ok
  | e => authFail e

/-- The duplicated per-actor assignable-role table (users/index.ts second
copy lines 358-369 and part_004 lines 102-114 repeat it verbatim). -/
def assignableRoles (actorRole : Option String) : List String :=
  if actorRole == some "superadmin" then ["superadmin", "agency", "admin", "viewer"]
  else if actorRole == some "agency" then ["agency", "admin", "viewer"]
  else if actorRole == some "admin" then ["admin", "viewer"]
  else []

/-- Request body of POST /api/admin/users. -/
structure CreateBody where
  email : Option String
  password : Option String
  name : Option String
  role : Option String
  tenant_id : Option String
  notify_forms : Option String
deriving DecidableEq

/-- Common tail of both POST /api/admin/users copies, from the required-field
check onward (the copies differ only in the entry gate and the
allowed-roles table, passed in here).  `hashPw` stands for `hashPassword`
(whose salt is drawn from the entropy source at call time). -/
def createUserCore (body : CreateBody) (allowedRoles : List String)
    (users : List UserRow) (hashPw : String → String) : Res × List UserRow :=
  if !(truthy body.email && truthy body.password && truthy body.name && truthy body.role) then
    (.badRequest "Email, password, name, and role are required", users)
  else
    let role := body.role.getD ""
    if !(allowedRoles.contains role) then
      (.badRequest "Invalid role or insufficient permissions", users)
    else if (role == "admin" || role == "viewer") && !(truthy body.tenant_id) then
      (.badRequest "Tenant ID is required for admin and viewer roles", users)
    else if users.any (fun u => u.email == body.email.getD "") then
      (.badRequest "Email already exists", users)
    else
      let passwordHash := hashPw (body.password.getD "")
      let notifyValue :=
        if ["none", "contact", "application", "all"].contains (body.notify_forms.getD "")
        then body.notify_forms.getD "" else "none"
      let effectiveTenantId :=
        if role == "agency" || role == "superadmin" then none else body.tenant_id
      let newRow : UserRow :=
        { id := nextId users, email := body.email.getD "", password_hash := passwordHash,
          name := body.name.getD "", role := role, tenant_id := effectiveTenantId,
          notify_forms := notifyValue, is_active := 1 }
      (.created, users ++ [newRow])

/-- POST /api/admin/users, first copy (users/index.ts lines 82-216): entry
gate admits only agency and superadmin actors; non-superadmin actors get
the role table ["agency", "admin", "viewer"]. -/
def createUserV1 (req : Request) (body : CreateBody) (users : List UserRow)
    (sessions : List SessionRow) (secret : String) (tokenNow : Nat) (dbNow : String)
    (hashPw : String → String) : Res × List UserRow :=
  match authenticate req sessions secret tokenNow dbNow with
  | .ok payload =>
    if !(payload.role == some "agency" || payload.role == some "superadmin") then
      (.forbidden "Access denied", users)
    else
      let allowedRoles :=
        if payload.role == some "superadmin" then ["superadmin", "agency", "admin", "viewer"]
        else ["agency", "admin", "viewer"]
      createUserCore body allowedRoles users hashPw
  | e => (authFail e, users)

/-- POST /api/admin/users, second copy (users/index.ts lines 298-442): entry
gate rejects only viewers; per-actor role table `assignableRoles`. -/
def createUserV2 (req : Request) (body : CreateBody) (users : List UserRow)
    (sessions : List SessionRow) (secret : String) (tokenNow : Nat) (dbNow : String)
    (hashPw : String → String) : Res × List UserRow :=
  match authenticate req sessions secret tokenNow dbNow with
  | .ok payload =>
    if payload.role == some "viewer" then (.forbidden "Access denied", users)
    else createUserCore body (assignableRoles payload.role) users hashPw
  | e => (authFail e, users)

/-- Request body of PATCH /api/admin/users/[id]. -/
structure PatchBody where
  name : Option String
  role : Option String
  tenant_id : Option String
  notify_forms : Option String
  is_active : Option Bool
  password : Option String
deriving DecidableEq

/-- One `SET` assignment of the dynamically built UPDATE statement. -/
inductive FieldUpd where
  | setName (v : String)
  | setRole (v : String)
  | clearTenant
  | setTenant (v : String)
  | setNotify (v : String)
  | setActive (v : Nat)
  | setPasswordHash (v : String)
deriving DecidableEq

def applyUpd (u : UserRow) : FieldUpd → UserRow
  | .setName v => { u with name := v }
  | .setRole v => { u with role := v }
  | .clearTenant => { u with tenant_id := none }
  | .setTenant v => { u with tenant_id := some v }
  | .setNotify v => { u with notify_forms := v }
  | .setActive v => { u with is_active := v }
  | .setPasswordHash v => { u with password_hash := v }

/-- Apply the assignments left to right.  SQLite keeps only the rightmost
assignment to a repeated column, which a left-to-right fold reproduces. -/
def applyUpds (u : UserRow) (upds : List FieldUpd) : UserRow :=
  upds.foldl applyUpd u

/-- PATCH body: the `name` assignment (part_004 lines 97-100). -/
def nameUpdsOf (body : PatchBody) : List FieldUpd :=
  match body.name with
  | some v => [FieldUpd.setName v]
  | none => []

/-- PATCH body: the `tenant_id` assignment (part_004 lines 131-134); note the
condition tests the requested `body.role`, not the stored one. -/
def tenantUpdsOf (body : PatchBody) : List FieldUpd :=
  match body.tenant_id with
  | some v => if !(body.role == some "agency") then [FieldUpd.setTenant v] else []
  | none => []

/-- PATCH body: the `notify_forms` assignment (part_004 lines 136-142);
invalid values are silently skipped. -/
def notifyUpdsOf (body : PatchBody) : List FieldUpd :=
  match body.notify_forms with
  | some v =>
    if ["none", "contact", "application", "all"].contains v then [FieldUpd.setNotify v]
    else []
  | none => []

/-- PATCH body: the `is_active` assignment (part_004 lines 144-147). -/
def activeUpdsOf (body : PatchBody) : List FieldUpd :=
  match body.is_active with
  | some b => [FieldUpd.setActive (if b then 1 else 0)]
  | none => []

/-- PATCH body: the `password_hash` assignment (part_004 lines 149-153);
`if (body.password)` skips empty strings. -/
def pwUpdsOf (hashPw : String → String) (body : PatchBody) : List FieldUpd :=
  match body.password with
  | some pw => if pw.isEmpty then [] else [FieldUpd.setPasswordHash (hashPw pw)]
  | none => []

/-- PATCH /api/admin/users/[id] (part_004 lines 11-189). -/
def patchUser (req : Request) (idParam : Option String) (body : PatchBody)
    (users : List UserRow) (sessions : List SessionRow) (secret : String)
    (tokenNow : Nat) (dbNow : String) (hashPw : String → String) :
    Res × List UserRow :=
  match idParam with
  | none => (.badRequest "User ID required", users)
  | some id =>
    match authenticate req sessions secret tokenNow dbNow with
    | .ok payload =>
      if payload.role == some "viewer" then (.forbidden "Access denied", users)
      else
        match users.find? (fun u => sqlIdMatches u.id id) with
        | none => (.notFound "User not found", users)
        | some existingUser =>
          if payload.role != some "superadmin" && existingUser.role == "superadmin" then
            (.forbidden "Access denied", users)
          else if payload.role == some "admin" && existingUser.role == "agency" then
            (.forbidden "Access denied", users)
          else
            let roleStep : Except (Res × List UserRow) (List FieldUpd) :=
              match body.role with
              | none => .ok []
              | some r =>
                if !((assignableRoles payload.role).contains r) then
                  .error (.badRequest "Invalid role or insufficient permissions", users)
                else
                  .ok (FieldUpd.setRole r ::
                    (if r == "agency" || r == "superadmin" then [FieldUpd.clearTenant] else []))
            match roleStep with
            | .error e => e
            | .ok roleUpds =>
              let upds := nameUpdsOf body ++ roleUpds ++ tenantUpdsOf body ++
                notifyUpdsOf body ++ activeUpdsOf body ++ pwUpdsOf hashPw body
              if upds.isEmpty then (.badRequest "No updates provided", users)
              else
                (.ok, users.map (fun u => if sqlIdMatches u.id id then applyUpds u upds else u))
    | e => (authFail e, users)

/-- DELETE /api/admin/users/[id] (part_004 lines 191-291).  Returns the
result together with the admin_users and sessions tables after the
request. -/
def deleteUser (req : Request) (idParam : Option String) (users : List UserRow)
    (sessions : List SessionRow) (secret : String) (tokenNow : Nat) (dbNow : String) :
    Res × List UserRow × List SessionRow :=
  match idParam with
  | none => (.badRequest "User ID required", users, sessions)
  | some id =>
    match authenticate req sessions secret tokenNow dbNow with
    | .ok payload =>
      if payload.role == some "viewer" then (.forbidden "Access denied", users, sessions)
      else if payload.sub == some id then
        (.badRequest "Cannot delete your own account", users, sessions)
      else
        match users.find? (fun u => sqlIdMatches u.id id) with
        | none => (.notFound "User not found", users, sessions)
        | some userToDelete =>
          if payload.role != some "superadmin" && userToDelete.role == "superadmin" then
            (.forbidden "Access denied", users, sessions)
          else if payload.role == some "admin" && userToDelete.role == "agency" then
            (.forbidden "Access denied", users, sessions)
          else
            (.ok,
              users.filter (fun u => !(sqlIdMatches u.id id)),
              sessions.filter (fun s => !(sqlIdMatches s.user_id id)))
    | e => (authFail e, users, sessions)

/-- The logout response: status plus the Set-Cookie header value. -/
structure LogoutResponse where
  status : Nat
  setCookie : Option String
deriving DecidableEq

/-- POST /api/admin/logout (the logout document in
pages/api/admin/resume/[...key].ts, lines 113-163): best-effort session
deletion (only when the token verifies and its `jti` is truthy), then an
unconditional 200 with the clearing cookie. -/
def logoutPOST (req : Request) (sessions : List SessionRow) (secret : String)
    (tokenNow : Nat) (isProduction : Bool) : LogoutResponse × List SessionRow :=
  let nextSessions :=
    match getTokenFromRequest req with
    | none => sessions
    | some tok =>
      match verifyToken tok secret tokenNow with
      | none => sessions
      | some payload =>
        match payload.jti with
        | some j => if j.isEmpty then sessions else deleteSession sessions j
        | none => sessions
  ({ status := 200, setCookie := some (createLogoutCookie isProduction) }, nextSessions)

/-- The role/tenant-scoping invariant as the spec states it: unscoped roles
(agency, superadmin) have no tenant_id; tenant-scoped roles (admin, viewer)
have one. -/
def roleTenantInvariant (u : UserRow) : Bool :=
  (if u.role == "agency" || u.role == "superadmin" then u.tenant_id == none else true) &&
  (if u.role == "admin" || u.role == "viewer" then u.tenant_id != none else true)

/-!
## Concrete sample values (used by witnesses and counterexamples)
-/

def wSecret : String := "secret1"

def wClaims : JWTPayload :=
  { sub := some "1", email := some "a@x.com", name := some "Root",
    role := some "superadmin", tenant_id := none, jti := some "j1",
    iat := some 0, exp := some 1000 }

def wToken : Token := { claims := wClaims, sig := (wSecret, wClaims) }

def wRequest : Request := { bearer := some wToken, cookieToken := none }

def wSession : SessionRow :=
  { id := "j1", user_id := 1, expires_at := "9999-01-01T00:00:00.000Z" }

def wDbNow : String := "2025-01-01 00:00:00"

def wAdminClaims : JWTPayload :=
  { sub := some "2", email := some "b@x.com", name := some "B",
    role := some "admin", tenant_id := some "A", jti := some "j2",
    iat := some 0, exp := some 1000 }

def wAdminToken : Token := { claims := wAdminClaims, sig := (wSecret, wAdminClaims) }

def wAdminRequest : Request := { bearer := some wAdminToken, cookieToken := none }

def wAdminSession : SessionRow :=
  { id := "j2", user_id := 2, expires_at := "9999-01-01T00:00:00.000Z" }

def agencyUserRow : UserRow :=
  { id := 7, email := "m@x.com", password_hash := "h", name := "M",
    role := "agency", tenant_id := none, notify_forms := "none", is_active := 1 }

def cBodySuper : CreateBody :=
  { email := some "c@x.com", password := some "p", name := some "C",
    role := some "superadmin", tenant_id := some "A", notify_forms := none }

def pBodySuper : PatchBody :=
  { name := none, role := some "superadmin", tenant_id := none,
    notify_forms := none, is_active := none, password := none }

def pBodyAdminRole : PatchBody :=
  { name := none, role := some "admin", tenant_id := none,
    notify_forms := none, is_active := none, password := none }

/-- The row stored by `createUserV2` for `cBodySuper` on an empty table. -/
def superRow : UserRow :=
  { id := 1, email := "c@x.com", password_hash := "H", name := "C",
    role := "superadmin", tenant_id := none, notify_forms := "none", is_active := 1 }

/-- 2025-01-15 08:00:00.000 UTC — a session expiry instant. -/
def expiryInstant : JsDate :=
  { year := 2025, month := 1, day := 15, hour := 8, minute := 0, second := 0, ms := 0 }

/-- 2025-01-15 11:00:00 UTC — a server clock three hours past the expiry. -/
def serverInstant : JsDate :=
  { year := 2025, month := 1, day := 15, hour := 11, minute := 0, second := 0, ms := 0 }

/-!
## Helper lemmas
-/

theorem hexVal_hexChar : ∀ n, n < 16 → hexVal (hexChar n) = some n := by decide

theorem isLowerHexChar_hexChar : ∀ n, n < 16 → isLowerHexChar (hexChar n) = true := by decide

theorem hexEncode_chars_lower (bs : List Nat) (h : ∀ b ∈ bs, b < 256) :
    ∀ c ∈ hexEncode bs, isLowerHexChar c = true := by
  intro c hc
  rcases List.mem_flatten.mp hc with ⟨l, hl, hcl⟩
  rcases List.mem_map.mp hl with ⟨b, hb, rfl⟩
  have hb256 := h b hb
  simp only [hexByte, List.mem_cons, List.not_mem_nil, or_false] at hcl
  rcases hcl with rfl | rfl
  · exact isLowerHexChar_hexChar _ (by omega)
  · exact isLowerHexChar_hexChar _ (by omega)

theorem colon_not_mem_hexEncode (bs : List Nat) (h : ∀ b ∈ bs, b < 256) :
    ':' ∉ hexEncode bs := by
  intro hmem
  have h2 := hexEncode_chars_lower bs h ':' hmem
  exact absurd h2 (by decide)

theorem hexEncode_length (bs : List Nat) : (hexEncode bs).length = 2 * bs.length := by
  induction bs with
  | nil => rfl
  | cons b rest ih =>
    have he : hexEncode (b :: rest) = hexByte b ++ hexEncode rest := rfl
    rw [he, List.length_append, ih, List.length_cons]
    show 2 + 2 * rest.length = 2 * (rest.length + 1)
    omega

theorem chunk2_hexEncode (bs : List Nat) : chunk2 (hexEncode bs) = bs.map hexByte := by
  induction bs with
  | nil => rfl
  | cons b rest ih =>
    show chunk2 (hexChar (b / 16) :: hexChar (b % 16) :: hexEncode rest) =
      hexByte b :: rest.map hexByte
    rw [chunk2, ih]
    rfl

theorem parseHexByte_hexByte (b : Nat) (hb : b < 256) : parseHexByte (hexByte b) = b := by
  have h1 : hexVal (hexChar (b / 16)) = some (b / 16) := hexVal_hexChar _ (by omega)
  have h2 : hexVal (hexChar (b % 16)) = some (b % 16) := hexVal_hexChar _ (by omega)
  simp [parseHexByte, parseHexRun, hexByte, h1, h2]
  omega

theorem splitOnColon_ne_nil (s : List Char) : splitOnColon s ≠ [] := by
  cases s with
  | nil => simp [splitOnColon]
  | cons c rest =>
    simp only [splitOnColon]
    cases h : splitOnColon rest with
    | nil => simp
    | cons p ps =>
      by_cases hc : c = ':' <;> simp [hc]

theorem splitOnColon_no_colon (s : List Char) (h : ':' ∉ s) : splitOnColon s = [s] := by
  induction s with
  | nil => rfl
  | cons c rest ih =>
    have hc : ¬(c = ':') := fun e => h (by simp [e])
    have hr : ':' ∉ rest := fun m => h (List.mem_cons_of_mem _ m)
    simp [splitOnColon, ih hr, hc]

theorem splitOnColon_append (a b : List Char) (h : ':' ∉ a) :
    splitOnColon (a ++ ':' :: b) = a :: splitOnColon b := by
  induction a with
  | nil =>
    simp only [List.nil_append, splitOnColon]
    cases hb : splitOnColon b with
    | nil => exact absurd hb (splitOnColon_ne_nil b)
    | cons p ps => simp
  | cons c rest ih =>
    have hc : ¬(c = ':') := fun e => h (by simp [e])
    have hr : ':' ∉ rest := fun m => h (List.mem_cons_of_mem _ m)
    simp only [List.cons_append, splitOnColon, List.append_eq, ih hr, hc, if_false]

theorem validateSession_deleteSession (db : List SessionRow) (j : String) (now : String) :
    validateSession (deleteSession db j) j now = false := by
  induction db with
  | nil => rfl
  | cons r rest ih =>
    simp only [deleteSession, validateSession, List.filter_cons] at ih ⊢
    by_cases h : r.id == j
    · simp only [h, Bool.not_true, if_false, ite_false]
      exact ih
    · simp only [h, Bool.not_false, if_true, ite_true, List.any_cons, h, Bool.false_and,
        Bool.false_or]
      exact ih

/-!
## Claim theorems: password hasher (C5, C6, C7)
-/

/-- C5: for every password P (and every 16-byte random salt and every
deterministic KDF with byte-valued output, standing for
`crypto.subtle.deriveBits`), verifying P against `hashPassword`'s output
succeeds: `verifyPassword P (hashPassword P) = ok true`. -/
theorem verifyPassword_hashPassword_roundtrip (subtle : Kdf) (salt : List Nat)
    (password : List Char)
    (hlen : salt.length = 16) (hbytes : ∀ b ∈ salt, b < 256)
    (hkdf : ∀ b ∈ subtle "PBKDF2" "SHA-512" password salt 100000 512, b < 256) :
    verifyPassword subtle password (hashPassword subtle salt password) = .ok true := by
  have h1 : ':' ∉ decChars 100000 := by decide
  have h2 : ':' ∉ hexEncode salt := colon_not_mem_hexEncode salt hbytes
  have h3 : ':' ∉ hexEncode (subtle "PBKDF2" "SHA-512" password salt 100000 512) :=
    colon_not_mem_hexEncode _ hkdf
  have hsplit : splitOnColon (hashPassword subtle salt password) =
      [decChars 100000, hexEncode salt,
        hexEncode (subtle "PBKDF2" "SHA-512" password salt 100000 512)] := by
    have hform : hashPassword subtle salt password =
        decChars 100000 ++ ':' :: (hexEncode salt ++ ':' ::
          hexEncode (subtle "PBKDF2" "SHA-512" password salt 100000 512)) := rfl
    rw [hform, splitOnColon_append _ _ h1, splitOnColon_append _ _ h2,
      splitOnColon_no_colon _ h3]
  have hne : (hexEncode salt).isEmpty = false := by
    have hl := hexEncode_length salt
    rw [hlen] at hl
    cases he : hexEncode salt with
    | nil => rw [he] at hl; simp at hl
    | cons x xs => rfl
  have hpairs : hexPairs (hexEncode salt) = some (salt.map hexByte) := by
    rw [hexPairs, hne, chunk2_hexEncode]
    simp
  have hsalt : (salt.map hexByte).map parseHexByte = salt := by
    rw [List.map_map]
    have hcong : ∀ b ∈ salt, (parseHexByte ∘ hexByte) b = id b := by
      intro b hb
      exact parseHexByte_hexByte b (hbytes b hb)
    rw [List.map_congr_left hcong, List.map_id]
  have hiter : parseIntDec (decChars 100000) = some 100000 := by decide
  simp only [verifyPassword]
  rw [hsplit]
  dsimp only
  rw [hpairs]
  dsimp only
  rw [hsalt, hiter]
  dsimp only
  simp

/-- C6 (code bug evaluation): on the three-part stored hash
`"100000::aa"` — empty salt segment — `verifyPassword` throws a TypeError
(the non-null assertion on `saltHex.match(/.{1,2}/g)` fails) instead of
returning false.  `zeroKdf` is a concrete stand-in KDF; the error is raised
before any key derivation. -/
def zeroKdf : Kdf := fun _ _ _ _ _ _ => List.replicate 64 0

theorem verifyPassword_throws_on_empty_salt_segment :
    verifyPassword zeroKdf "x".data "100000::aa".data = .error .typeError := by rfl

/-- C7: `hashPassword` returns exactly
`"100000:" ++ s ++ ":" ++ k` where `s` is the 32-character lowercase-hex
encoding of the 16-byte salt and `k` is the 128-character lowercase-hex
encoding of the 512-bit (64-byte) key derived by PBKDF2-HMAC-SHA512 with
100000 iterations. -/
theorem hashPassword_format (subtle : Kdf) (salt : List Nat) (password : List Char)
    (hlen : salt.length = 16) (hbytes : ∀ b ∈ salt, b < 256)
    (hklen : (subtle "PBKDF2" "SHA-512" password salt 100000 512).length = 64)
    (hkdf : ∀ b ∈ subtle "PBKDF2" "SHA-512" password salt 100000 512, b < 256) :
    hashPassword subtle salt password =
      "100000:".data ++ hexEncode salt ++ ":".data ++
        hexEncode (subtle "PBKDF2" "SHA-512" password salt 100000 512) ∧
    (hexEncode salt).length = 32 ∧
    (hexEncode (subtle "PBKDF2" "SHA-512" password salt 100000 512)).length = 128 ∧
    (∀ c ∈ hexEncode salt, isLowerHexChar c = true) ∧
    (∀ c ∈ hexEncode (subtle "PBKDF2" "SHA-512" password salt 100000 512),
      isLowerHexChar c = true) := by
  refine ⟨?_, ?_, ?_, hexEncode_chars_lower salt hbytes, hexEncode_chars_lower _ hkdf⟩
  · rw [show ("100000:".data : List Char) = decChars 100000 ++ [':'] from by decide]
    simp [hashPassword, List.append_assoc]
  · rw [hexEncode_length, hlen]
  · rw [hexEncode_length, hklen]

theorem verifyPassword_hashPassword_roundtrip_witness :
    verifyPassword zeroKdf "pw".data
      (hashPassword zeroKdf (List.replicate 16 7) "pw".data) = .ok true :=
  verifyPassword_hashPassword_roundtrip zeroKdf (List.replicate 16 7) "pw".data
    (by decide) (by decide) (by decide)

theorem hashPassword_format_witness :
    hashPassword zeroKdf (List.replicate 16 7) "pw".data =
      "100000:".data ++ hexEncode (List.replicate 16 7) ++ ":".data ++
        hexEncode (zeroKdf "PBKDF2" "SHA-512" "pw".data (List.replicate 16 7) 100000 512) :=
  (hashPassword_format zeroKdf (List.replicate 16 7) "pw".data
    (by decide) (by decide) (by decide) (by decide)).1

/-!
## Claim theorems: access policy (C3)
-/

/-- C3: `canAccessTenant p t` is true exactly when the principal's role is
"agency" or its tenant_id equals the queried tenant id; in particular a
superadmin whose tenant_id is null is denied for every tenant id. -/
theorem canAccessTenant_spec (p : JWTPayload) (t : String) :
    (canAccessTenant p t = true ↔ (p.role = some "agency" ∨ p.tenant_id = some t)) ∧
    (p.role = some "superadmin" ∧ p.tenant_id = none → canAccessTenant p t = false) := by
  have hif : canAccessTenant p t = (p.role == some "agency" || p.tenant_id == some t) := by
    rw [canAccessTenant]
    by_cases h : p.role == some "agency" <;> simp [h]
  constructor
  · rw [hif]
    simp
  · rintro ⟨hr, ht⟩
    rw [hif, hr, ht]
    rfl

theorem canAccessTenant_spec_witness :
    canAccessTenant wClaims "B" = false :=
  (canAccessTenant_spec wClaims "B").2 ⟨rfl, rfl⟩

/-!
## Claim theorems: session validation clock-format bug (C8)
-/

/-- C8 (code-bug evaluation): `createSession` stores `expires_at` as an
ISO-8601 string (`...T...Z`) while `validateSession` compares it
lexicographically against `datetime('now')`'s `YYYY-MM-DD HH:MM:SS`
format.  Since 'T' > ' ', a session whose expiry instant is strictly
earlier than the server clock on the same UTC day still validates as live,
contradicting the claimed "exists and expires_at strictly later" iff. -/
theorem validateSession_accepts_expired_same_day_session :
    dateKey expiryInstant < dateKey serverInstant ∧
    validateSession (createSession [] 1 "s1" expiryInstant) "s1"
      (sqliteNow serverInstant) = true := by
  constructor
  · decide
  · decide

/-!
## Claim theorems: revocation via the request-authentication pipeline (C1)
-/

/-- C1: for every token that verifies against the server secret (and is
unexpired — both facts packaged in `verifyToken · = some p`), once the
sessions row named by its jti has been deleted, the four-step pipeline of
the admin endpoints rejects the request with the 401 "Session expired"
response, while `verifyToken` alone still succeeds with the token's
claims. -/
theorem revoked_session_rejected (req : Request) (sessions : List SessionRow)
    (secret : String) (tokenNow : Nat) (dbNow : String) (tok : Token)
    (p : JWTPayload) (j : String)
    (hget : getTokenFromRequest req = some tok)
    (hver : verifyToken tok secret tokenNow = some p)
    (hjti : p.jti = some j) :
    submissionsGET req (deleteSession sessions j) secret tokenNow dbNow =
      .unauthorized "Session expired" ∧
    (submissionsGET req (deleteSession sessions j) secret tokenNow dbNow).status = 401 ∧
    verifyToken tok secret tokenNow = some p := by
  have hstep : authenticate req (deleteSession sessions j) secret tokenNow dbNow =
      .badSession := by
    simp only [authenticate, hget, hver, hjti, validateSession_deleteSession]
    rfl
  refine ⟨?_, ?_, hver⟩
  · simp only [submissionsGET, hstep]
    rfl
  · simp only [submissionsGET, hstep]
    rfl

theorem revoked_session_rejected_witness :
    submissionsGET wRequest (deleteSession [wSession] "j1") wSecret 5 wDbNow =
      .unauthorized "Session expired" ∧
    (submissionsGET wRequest (deleteSession [wSession] "j1") wSecret 5 wDbNow).status = 401 ∧
    verifyToken wToken wSecret 5 = some wClaims :=
  revoked_session_rejected wRequest [wSession] wSecret 5 wDbNow wToken wClaims "j1"
    (by decide) (by decide) (by decide)

/-!
## Claim theorems: self-deletion blocked (C9)
-/

/-- C9: for every authenticated actor, of every role, a DELETE
/api/admin/users/[id] whose target id equals the actor's own sub claim is
rejected with an error status (403 for viewers at the role gate, 400 at the
self-deletion guard), and neither the admin_users table nor the sessions
table is modified. -/
theorem self_delete_rejected (req : Request) (idStr : String) (users : List UserRow)
    (sessions : List SessionRow) (secret : String) (tokenNow : Nat) (dbNow : String)
    (p : JWTPayload)
    (hauth : authenticate req sessions secret tokenNow dbNow = .ok p)
    (hself : p.sub = some idStr) :
    ((deleteUser req (some idStr) users sessions secret tokenNow dbNow).1.status = 403 ∨
      (deleteUser req (some idStr) users sessions secret tokenNow dbNow).1.status = 400) ∧
    (deleteUser req (some idStr) users sessions secret tokenNow dbNow).2.1 = users ∧
    (deleteUser req (some idStr) users sessions secret tokenNow dbNow).2.2 = sessions := by
  simp only [deleteUser, hauth]
  by_cases hv : p.role == some "viewer"
  · simp [hv, Res.status]
  · have hs : (p.sub == some idStr) = true := by rw [hself]; simp
    simp [hv, hs, Res.status]

theorem self_delete_rejected_witness :
    ((deleteUser wRequest (some "1") [agencyUserRow] [wSession] wSecret 5 wDbNow).1.status = 403 ∨
      (deleteUser wRequest (some "1") [agencyUserRow] [wSession] wSecret 5 wDbNow).1.status = 400) ∧
    (deleteUser wRequest (some "1") [agencyUserRow] [wSession] wSecret 5 wDbNow).2.1 =
      [agencyUserRow] ∧
    (deleteUser wRequest (some "1") [agencyUserRow] [wSession] wSecret 5 wDbNow).2.2 =
      [wSession] :=
  self_delete_rejected wRequest "1" [agencyUserRow] [wSession] wSecret 5 wDbNow wClaims
    (by decide) (by decide)

/-!
## Claim theorems: logout (C10)
-/

/-- C10: POST /api/admin/logout answers 200 and sets the Max-Age=0 clearing
cookie for every request — token absent, token unverifiable, or token valid —
and it deletes the sessions row exactly when the presented token verifies
and carries a truthy jti claim. -/
theorem logout_clears_cookie_and_revokes (req : Request) (sessions : List SessionRow)
    (secret : String) (tokenNow : Nat) (isProd : Bool) :
    (logoutPOST req sessions secret tokenNow isProd).1.status = 200 ∧
    (logoutPOST req sessions secret tokenNow isProd).1.setCookie =
      some (createLogoutCookie isProd) ∧
    (∃ pre : String, createLogoutCookie isProd = pre ++ "Max-Age=0") ∧
    (getTokenFromRequest req = none →
      (logoutPOST req sessions secret tokenNow isProd).2 = sessions) ∧
    (∀ tok, getTokenFromRequest req = some tok →
      verifyToken tok secret tokenNow = none →
      (logoutPOST req sessions secret tokenNow isProd).2 = sessions) ∧
    (∀ tok p, getTokenFromRequest req = some tok →
      verifyToken tok secret tokenNow = some p →
      (p.jti = none ∨ p.jti = some "") →
      (logoutPOST req sessions secret tokenNow isProd).2 = sessions) ∧
    (∀ tok p j, getTokenFromRequest req = some tok →
      verifyToken tok secret tokenNow = some p →
      p.jti = some j → j.isEmpty = false →
      (logoutPOST req sessions secret tokenNow isProd).2 = deleteSession sessions j) := by
  refine ⟨rfl, rfl, ?_, ?_, ?_, ?_, ?_⟩
  · cases isProd
    · exact ⟨"admin_token=; Path=/; HttpOnly; SameSite=Lax; ", by decide⟩
    · exact ⟨"admin_token=; Path=/; HttpOnly; Secure; SameSite=Lax; ", by decide⟩
  · intro h
    simp [logoutPOST, h]
  · intro tok h hv
    simp [logoutPOST, h, hv]
  · intro tok p h hv hj
    rcases hj with hj | hj
    · simp [logoutPOST, h, hv, hj]
    · simp only [logoutPOST, h, hv, hj]
      rfl
  · intro tok p j h hv hj hne
    simp [logoutPOST, h, hv, hj, hne]

theorem logout_clears_cookie_and_revokes_witness :
    (logoutPOST wRequest [wSession] wSecret 5 false).1.status = 200 ∧
    (logoutPOST wRequest [wSession] wSecret 5 false).2 = deleteSession [wSession] "j1" :=
  ⟨(logout_clears_cookie_and_revokes wRequest [wSession] wSecret 5 false).1,
    (logout_clears_cookie_and_revokes wRequest [wSession] wSecret 5 false).2.2.2.2.2.2
      wToken wClaims "j1" (by decide) (by decide) (by decide) (by decide)⟩

/-!
## Claim theorems: role-assignment bound (C4)
-/

theorem createUserCore_out_of_set (body : CreateBody) (allowed : List String)
    (users : List UserRow) (hashPw : String → String) (r : String)
    (hr : body.role = some r) (hout : r ∉ allowed) :
    (createUserCore body allowed users hashPw).1 ≠ .created ∧
    (createUserCore body allowed users hashPw).2 = users := by
  simp only [createUserCore, hr]
  by_cases hf : (truthy body.email && truthy body.password && truthy body.name &&
      truthy (some r)) = true
  · simp [hf, hout]
  · simp [hf]

/-- C4: on both copies of the user-create path and on the user-edit path, a
request assigning a role outside the actor's assignable set (superadmin:
superadmin/agency/admin/viewer; agency: agency/admin/viewer; admin:
admin/viewer; viewer or anything else: nothing) is rejected — the result is
never the success status — and the admin_users table is left unchanged. -/
theorem assign_role_outside_set_rejected (req : Request) (body : CreateBody)
    (pbody : PatchBody) (idStr : String) (users : List UserRow)
    (sessions : List SessionRow) (secret : String) (tokenNow : Nat) (dbNow : String)
    (hashPw : String → String) (p : JWTPayload) (r : String)
    (hauth : authenticate req sessions secret tokenNow dbNow = .ok p)
    (hr1 : body.role = some r) (hr2 : pbody.role = some r)
    (hout : r ∉ assignableRoles p.role) :
    ((createUserV1 req body users sessions secret tokenNow dbNow hashPw).1 ≠ .created ∧
      (createUserV1 req body users sessions secret tokenNow dbNow hashPw).2 = users) ∧
    ((createUserV2 req body users sessions secret tokenNow dbNow hashPw).1 ≠ .created ∧
      (createUserV2 req body users sessions secret tokenNow dbNow hashPw).2 = users) ∧
    ((patchUser req (some idStr) pbody users sessions secret tokenNow dbNow hashPw).1 ≠ .ok ∧
      (patchUser req (some idStr) pbody users sessions secret tokenNow dbNow hashPw).2 =
        users) := by
  refine ⟨?_, ?_, ?_⟩
  · -- first create copy
    simp only [createUserV1, hauth]
    by_cases hg : (p.role == some "agency" || p.role == some "superadmin") = true
    · by_cases hs : (p.role == some "superadmin") = true
      · have hout4 : r ∉ ["superadmin", "agency", "admin", "viewer"] := by
          have ha : assignableRoles p.role = ["superadmin", "agency", "admin", "viewer"] := by
            simp [assignableRoles, hs]
          rw [ha] at hout
          exact hout
        have hcore := createUserCore_out_of_set body _ users hashPw r hr1 hout4
        simpa [hs, Bool.or_true] using hcore
      · have hag := ((Bool.or_eq_true _ _).mp hg).resolve_right hs
        have hout3 : r ∉ ["agency", "admin", "viewer"] := by
          have ha : assignableRoles p.role = ["agency", "admin", "viewer"] := by
            simp [assignableRoles, hs, hag]
          rw [ha] at hout
          exact hout
        have hcore := createUserCore_out_of_set body _ users hashPw r hr1 hout3
        simpa [hs, hag] using hcore
    · simp [hg]
  · -- second create copy
    simp only [createUserV2, hauth]
    by_cases hview : (p.role == some "viewer") = true
    · simp [hview]
    · have hcore := createUserCore_out_of_set body (assignableRoles p.role) users hashPw r
        hr1 hout
      simpa [hview] using hcore
  · -- edit path
    simp only [patchUser, hauth]
    by_cases hview : (p.role == some "viewer") = true
    · simp [hview]
    · cases hfind : users.find? (fun u => sqlIdMatches u.id idStr) with
      | none => simp [hview, hfind]
      | some existingUser =>
        by_cases hsg : (p.role != some "superadmin" && existingUser.role == "superadmin") = true
        · simp [hview, hfind, hsg]
        · by_cases hag2 : (p.role == some "admin" && existingUser.role == "agency") = true
          · simp [hview, hfind, hsg, hag2]
          · simp [hview, hfind, hsg, hag2, hr2, hout]

theorem assign_role_outside_set_rejected_witness :
    ((createUserV1 wAdminRequest cBodySuper [agencyUserRow] [wAdminSession] wSecret 5 wDbNow
        (fun _ => "H")).1 ≠ .created ∧
      (createUserV1 wAdminRequest cBodySuper [agencyUserRow] [wAdminSession] wSecret 5 wDbNow
        (fun _ => "H")).2 = [agencyUserRow]) ∧
    ((createUserV2 wAdminRequest cBodySuper [agencyUserRow] [wAdminSession] wSecret 5 wDbNow
        (fun _ => "H")).1 ≠ .created ∧
      (createUserV2 wAdminRequest cBodySuper [agencyUserRow] [wAdminSession] wSecret 5 wDbNow
        (fun _ => "H")).2 = [agencyUserRow]) ∧
    ((patchUser wAdminRequest (some "7") pBodySuper [agencyUserRow] [wAdminSession] wSecret 5
        wDbNow (fun _ => "H")).1 ≠ .ok ∧
      (patchUser wAdminRequest (some "7") pBodySuper [agencyUserRow] [wAdminSession] wSecret 5
        wDbNow (fun _ => "H")).2 = [agencyUserRow]) :=
  assign_role_outside_set_rejected wAdminRequest cBodySuper pBodySuper "7" [agencyUserRow]
    [wAdminSession] wSecret 5 wDbNow (fun _ => "H") wAdminClaims "superadmin"
    (by decide) (by decide) (by decide) (by decide)

/-!
## Claim theorems: role/tenant invariant on user writes (C2)
-/

/-- C2 counterexample: a PATCH by an authenticated superadmin that changes an
agency user's (tenant_id null) role to "admin" without supplying a
tenant_id succeeds (200) and stores a row with role "admin" and null
tenant_id — a violating row is stored rather than rejected at write
time. -/
theorem patch_stores_tenant_invariant_violation :
    (patchUser wRequest (some "7") pBodyAdminRole [agencyUserRow] [wSession] wSecret 5 wDbNow
        (fun _ => "H")).1 = .ok ∧
    (patchUser wRequest (some "7") pBodyAdminRole [agencyUserRow] [wSession] wSecret 5 wDbNow
        (fun _ => "H")).2 = [{ agencyUserRow with role := "admin" }] ∧
    roleTenantInvariant { agencyUserRow with role := "admin" } = false := by
  refine ⟨?_, ?_, ?_⟩ <;> decide

theorem assignableRoles_sub (pr : Option String) :
    ∀ s ∈ assignableRoles pr, s = "superadmin" ∨ s = "agency" ∨ s = "admin" ∨ s = "viewer" := by
  intro s hs
  by_cases h1 : (pr == some "superadmin") = true
  · simp [assignableRoles, h1] at hs
    tauto
  · by_cases h2 : (pr == some "agency") = true
    · simp [assignableRoles, h1, h2] at hs
      tauto
    · by_cases h3 : (pr == some "admin") = true
      · simp [assignableRoles, h1, h2, h3] at hs
        tauto
      · simp [assignableRoles, h1, h2, h3] at hs

theorem createUserCore_mem (body : CreateBody) (allowed : List String)
    (users : List UserRow) (hashPw : String → String)
    (hsub : ∀ s ∈ allowed, s = "superadmin" ∨ s = "agency" ∨ s = "admin" ∨ s = "viewer") :
    ∀ u ∈ (createUserCore body allowed users hashPw).2,
      u ∈ users ∨ roleTenantInvariant u = true := by
  intro u hu
  simp only [createUserCore] at hu
  split at hu
  · exact .inl hu
  · split at hu
    next hcontains =>
      exact .inl hu
    next hcontains =>
      split at hu
      next htenant => exact .inl hu
      next htenant =>
        split at hu
        next hemail => exact .inl hu
        next hemail =>
          rcases List.mem_append.mp hu with h | h
          · exact .inl h
          · right
            have hueq := List.mem_singleton.mp h
            have hc : allowed.contains (body.role.getD "") = true := by
              revert hcontains
              cases hcc : allowed.contains (body.role.getD "") <;> simp
            have hmem4 := hsub _ (by simpa using hc)
            subst hueq
            rcases hmem4 with hrv | hrv | hrv | hrv
            · rw [hrv]
              simp [roleTenantInvariant]
            · rw [hrv]
              simp [roleTenantInvariant]
            · rw [hrv] at htenant ⊢
              have ht : truthy body.tenant_id = true := by
                revert htenant
                cases truthy body.tenant_id <;> simp
              cases hbt : body.tenant_id with
              | none => rw [hbt] at ht; exact absurd ht (by decide)
              | some s => simp [roleTenantInvariant]
            · rw [hrv] at htenant ⊢
              have ht : truthy body.tenant_id = true := by
                revert htenant
                cases truthy body.tenant_id <;> simp
              cases hbt : body.tenant_id with
              | none => rw [hbt] at ht; exact absurd ht (by decide)
              | some s => simp [roleTenantInvariant]

theorem applyUpds_append (u : UserRow) (l1 l2 : List FieldUpd) :
    applyUpds u (l1 ++ l2) = applyUpds (applyUpds u l1) l2 := by
  simp [applyUpds, List.foldl_append]

theorem isEmpty_false_of_mem {α : Type} {l : List α} {x : α} (h : x ∈ l) :
    l.isEmpty = false := by
  cases l
  · cases h
  · rfl

theorem notifyUpdsOf_tenant (body : PatchBody) (v : UserRow) :
    (applyUpds v (notifyUpdsOf body)).tenant_id = v.tenant_id := by
  unfold notifyUpdsOf
  cases body.notify_forms with
  | none => rfl
  | some s =>
    show (applyUpds v (if (["none", "contact", "application", "all"].contains s) = true
      then [FieldUpd.setNotify s] else [])).tenant_id = v.tenant_id
    split <;> rfl

theorem activeUpdsOf_tenant (body : PatchBody) (v : UserRow) :
    (applyUpds v (activeUpdsOf body)).tenant_id = v.tenant_id := by
  unfold activeUpdsOf
  cases body.is_active with
  | none => rfl
  | some b => rfl

theorem pwUpdsOf_tenant (hashPw : String → String) (body : PatchBody) (v : UserRow) :
    (applyUpds v (pwUpdsOf hashPw body)).tenant_id = v.tenant_id := by
  unfold pwUpdsOf
  cases body.password with
  | none => rfl
  | some pw =>
    show (applyUpds v (if pw.isEmpty = true
      then [] else [FieldUpd.setPasswordHash (hashPw pw)])).tenant_id = v.tenant_id
    split <;> rfl

theorem tenantUpdsOf_nil_of_agency (body : PatchBody) (h : body.role = some "agency") :
    tenantUpdsOf body = [] := by
  unfold tenantUpdsOf
  cases body.tenant_id with
  | none => rfl
  | some v => simp [h]

theorem tenantUpdsOf_nil_of_none (body : PatchBody) (h : body.tenant_id = none) :
    tenantUpdsOf body = [] := by
  unfold tenantUpdsOf
  rw [h]

/-- C2 (amended): on the user-create path every stored row satisfies the
role/tenant invariant (unscoped roles get a null tenant_id, tenant-scoped
roles require one).  On the user-edit path the invariant is enforced only
when the role moves to an unscoped one — a role change to "agency" always
clears tenant_id, and a role change to "superadmin" clears it when the same
request supplies no tenant_id — while a role change to admin/viewer does
not require a tenant_id, so a violating row can be stored (see the
counterexample). -/
theorem user_writes_tenant_invariant_amended :
    (∀ (req : Request) (body : CreateBody) (users : List UserRow)
      (sessions : List SessionRow) (secret : String) (tokenNow : Nat) (dbNow : String)
      (hashPw : String → String),
      ∀ u ∈ (createUserV2 req body users sessions secret tokenNow dbNow hashPw).2,
        u ∈ users ∨ roleTenantInvariant u = true) ∧
    (∀ (req : Request) (idStr : String) (pbody : PatchBody) (users : List UserRow)
      (sessions : List SessionRow) (secret : String) (tokenNow : Nat) (dbNow : String)
      (hashPw : String → String) (r : String),
      pbody.role = some r →
      (r = "agency" ∨ (r = "superadmin" ∧ pbody.tenant_id = none)) →
      ∀ u ∈ (patchUser req (some idStr) pbody users sessions secret tokenNow dbNow hashPw).2,
        u ∈ users ∨ u.tenant_id = none) := by
  constructor
  · intro req body users sessions secret tokenNow dbNow hashPw u hu
    cases hauth : authenticate req sessions secret tokenNow dbNow with
    | ok payload =>
      simp only [createUserV2, hauth] at hu
      by_cases hview : (payload.role == some "viewer") = true
      · rw [if_pos hview] at hu
        exact .inl hu
      · rw [if_neg hview] at hu
        exact createUserCore_mem body _ users hashPw (assignableRoles_sub payload.role) u hu
    | noToken => simp only [createUserV2, hauth] at hu; exact .inl hu
    | badToken => simp only [createUserV2, hauth] at hu; exact .inl hu
    | noJti => simp only [createUserV2, hauth] at hu; exact .inl hu
    | badSession => simp only [createUserV2, hauth] at hu; exact .inl hu
  · intro req idStr pbody users sessions secret tokenNow dbNow hashPw r hrole hcase u hu
    have hclear : (if (r == "agency" || r == "superadmin") = true
        then [FieldUpd.clearTenant] else []) = [FieldUpd.clearTenant] := by
      rcases hcase with h | ⟨h, _⟩ <;> simp [h]
    have htnil : tenantUpdsOf pbody = [] := by
      rcases hcase with h | ⟨_, h⟩
      · exact tenantUpdsOf_nil_of_agency pbody (h ▸ hrole)
      · exact tenantUpdsOf_nil_of_none pbody h
    cases hauth : authenticate req sessions secret tokenNow dbNow with
    | ok payload =>
      simp only [patchUser, hauth] at hu
      by_cases hview : (payload.role == some "viewer") = true
      · rw [if_pos hview] at hu
        exact .inl hu
      · rw [if_neg hview] at hu
        cases hfind : users.find? (fun v => sqlIdMatches v.id idStr) with
        | none => rw [hfind] at hu; exact .inl hu
        | some ex =>
          simp only [hfind] at hu
          by_cases hsg : (payload.role != some "superadmin" && ex.role == "superadmin") = true
          · rw [if_pos hsg] at hu
            exact .inl hu
          · rw [if_neg hsg] at hu
            by_cases hag2 : (payload.role == some "admin" && ex.role == "agency") = true
            · rw [if_pos hag2] at hu
              exact .inl hu
            · rw [if_neg hag2] at hu
              by_cases hin : ((assignableRoles payload.role).contains r) = true
              · have hnotc : (!((assignableRoles payload.role).contains r)) = false := by
                  rw [hin]
                  rfl
                simp only [hrole, hnotc, if_neg Bool.false_ne_true, hclear, htnil,
                  List.append_nil] at hu
                have hne : ((nameUpdsOf pbody ++ [FieldUpd.setRole r, FieldUpd.clearTenant]) ++
                    notifyUpdsOf pbody ++ activeUpdsOf pbody ++
                    pwUpdsOf hashPw pbody).isEmpty = false :=
                  isEmpty_false_of_mem (x := FieldUpd.setRole r) (by simp)
                rw [hne, if_neg Bool.false_ne_true] at hu
                rcases List.mem_map.mp hu with ⟨orig, horig, heq⟩
                by_cases hm : sqlIdMatches orig.id idStr = true
                · rw [if_pos hm] at heq
                  right
                  rw [← heq]
                  simp only [applyUpds_append]
                  rw [pwUpdsOf_tenant, activeUpdsOf_tenant, notifyUpdsOf_tenant]
                  rfl
                · rw [if_neg hm] at heq
                  exact .inl (heq ▸ horig)
              · have hin2 : ((assignableRoles payload.role).contains r) = false := by
                  revert hin
                  cases (assignableRoles payload.role).contains r <;> simp
                simp only [hrole, hin2, Bool.not_false, if_pos rfl] at hu
                exact .inl hu
    | noToken => simp only [patchUser, hauth] at hu; exact .inl hu
    | badToken => simp only [patchUser, hauth] at hu; exact .inl hu
    | noJti => simp only [patchUser, hauth] at hu; exact .inl hu
    | badSession => simp only [patchUser, hauth] at hu; exact .inl hu

theorem user_writes_tenant_invariant_amended_witness :
    roleTenantInvariant superRow = true :=
  ((user_writes_tenant_invariant_amended.1 wRequest cBodySuper [] [wSession] wSecret 5 wDbNow
      (fun _ => "H") superRow (by decide)).resolve_left (by decide))

end WoodWireline
